import Mathlib

/-!
Shallow embedding of the GRatekeeper rate-limit governor
(`src/gratekeeper/ratekeeper.py`, `client.py`, `bridge.py`,
`dashboard.py`, `textual_dashboard.py`) together with theorems settling
the specification claims about it.

Modelling conventions:
* Python `int` is `Int` (arbitrary precision in both languages).
* Python `float` configuration values (`soft_floor_fraction`, wall-clock
  times) are modelled as exact rationals `ℚ`; the concrete fractions used
  by the spec (0.5, 0.2) and the concrete instances below are exact in
  binary floating point, so truncation behaviour agrees.
* `dict` objects are modelled either as total functions with an explicit
  default (the governor's `setdefault` pattern) or as association lists
  where the dict is built key by key.
* Side effects (sleeping, the transport call, socket transmission) are
  returned as data instead of performed.
-/

/-- Python whitespace characters stripped by `str.strip()` / accepted
around `int()` literals (ASCII subset). -/
def isPySpace (c : Char) : Bool :=
  c = ' ' || c = '\t' || c = '\n' || c = '\r' || c = Char.ofNat 11 || c = Char.ofNat 12

/-- Strip leading and trailing whitespace from a character list. -/
def pyStripChars (l : List Char) : List Char :=
  ((l.dropWhile isPySpace).reverse.dropWhile isPySpace).reverse

/-- Value of an ASCII decimal digit. -/
def digitVal (c : Char) : Option Nat :=
  if '0' ≤ c ∧ c ≤ '9' then some (c.toNat - '0'.toNat) else none

/-- Digits of a CPython decimal literal after the first digit: underscores
are allowed only between two digits (`int("1_0") = 10`, `int("1__0")` and
`int("1_")` raise `ValueError`). `prevUnderscore` records whether the
previous character was an underscore. -/
def parseDigitsAux (prevUnderscore : Bool) (acc : Nat) : List Char → Option Nat
  | [] => if prevUnderscore then none else some acc
  | c :: rest =>
      if c = '_' then
        if prevUnderscore then none else parseDigitsAux true acc rest
      else
        match digitVal c with
        | some d => parseDigitsAux false (acc * 10 + d) rest
        | none => none

/-- Parse a nonempty run of decimal digits (with CPython underscore
grouping); the first character must be a digit. -/
def parseDigits : List Char → Option Nat
  | [] => none
  | c :: rest =>
      match digitVal c with
      | some d => parseDigitsAux false d rest
      | none => none

/-- CPython `int(s)` on a decimal string: surrounding whitespace is
ignored, an optional single sign is allowed, the rest must be digits with
underscore grouping. Returns `none` where CPython raises `ValueError`. -/
def pyInt (s : String) : Option Int :=
  match pyStripChars s.data with
  | [] => none
  | '+' :: rest => (parseDigits rest).map (fun n => (n : Int))
  | '-' :: rest => (parseDigits rest).map (fun n => -(n : Int))
  | l => (parseDigits l).map (fun n => (n : Int))

/-- CPython `int(x)` on a number: truncation toward zero. For a rational
`num/den` (with `den > 0`) this is T-division of the numerator by the
denominator. -/
def pyTrunc (q : ℚ) : Int :=
  q.num.tdiv (q.den : Int)

-- quick sanity examples (concrete evaluation must go through the kernel)
example : pyInt "30" = some 30 := by decide
example : pyInt " -5 " = some (-5) := by decide
example : pyInt "x" = none := by decide
example : pyInt "1_0" = some 10 := by decide
example : pyInt "1__0" = none := by decide
example : pyInt "" = none := by decide
example : pyTrunc (mkRat 5 2) = 2 := by decide
example : pyTrunc (mkRat (-5) 2) = -2 := by decide

/-- CPython `int(l * f)` for an integer `l` and a rational `f = num/den`
(`den > 0`): the product is `(l * num) / den`, and `int()` truncates
toward zero, which is exactly T-division by the positive denominator.
(The Python source computes this in floating point; the fractions used in
the code and spec — 0.5, 0.2 — make the two agree on all realistic
limits.) -/
def pyTruncMulInt (l : Int) (f : ℚ) : Int :=
  (l * f.num).tdiv (f.den : Int)

example : pyTruncMulInt 10 (mkRat 1 2) = 5 := by decide
example : pyTruncMulInt 5 (mkRat 1 5) = 1 := by decide
example : pyTruncMulInt 100 (mkRat 1 5) = 20 := by decide

/-! ## Governor / Quota State (`src/gratekeeper/ratekeeper.py`) -/

/-- Observed GitHub rate-limit state for a single logical bucket
(`BucketState` dataclass). -/
structure BucketState where
  limit : Option Int := none
  remaining : Option Int := none
  reset_ts : Option Int := none
deriving DecidableEq, Repr

/-- The default `BucketState()`: all fields unset. -/
def BucketState.empty : BucketState := {}

/-- The configuration parameters of `LocalGratekeeper.__init__`. The
bucket mapping is kept separately (see `Buckets`). -/
structure GratekeeperConfig where
  soft_floor_fraction : ℚ
  soft_floor_min : Int
  safety_buffer_seconds : Int
deriving DecidableEq

/-- Default constructor arguments: fraction 0.2, min 10, buffer 5. -/
def defaultConfig : GratekeeperConfig :=
  { soft_floor_fraction := mkRat 1 5
    soft_floor_min := 10
    safety_buffer_seconds := 5 }

/-- A response-header mapping, as consumed by `after_response`: the code
only ever calls `headers.get` on string keys with string values. -/
def Headers := String → Option String

/-- `LocalGratekeeper._parse_int_header`: `None` stays `None`, otherwise
CPython `int()` with `ValueError`/`TypeError` mapped to `None`.  (The
list/tuple branch of the source is unreachable for string-valued
mappings and is not modelled.) -/
def parse_int_header (value : Option String) : Option Int :=
  match value with
  | none => none
  | some v => pyInt v

/-- The soft floor computed inside `before_request`:
`max(int(limit * soft_floor_fraction), soft_floor_min)`. -/
def softFloor (cfg : GratekeeperConfig) (limit : Int) : Int :=
  max (pyTruncMulInt limit cfg.soft_floor_fraction) cfg.soft_floor_min

/-- `LocalGratekeeper.before_request` on a single bucket's state.
Returns the resulting stored state together with `some d` when the call
sleeps for `d` seconds (`sleep_fn` invoked once, outside the lock), or
`none` when it returns without sleeping.  Mirrors the source order:
stale-window clearing, early return on unset `limit`/`remaining`, soft
floor check, speculative decrement. -/
def before_request (cfg : GratekeeperConfig) (state0 : BucketState) (now : Int) :
    BucketState × Option Int :=
  let state :=
    match state0.reset_ts with
    | some r => if r ≤ now then BucketState.empty else state0
    | none => state0
  match state.limit, state.remaining with
  | some l, some r =>
      let floor := softFloor cfg l
      match state.reset_ts with
      | some t =>
          if r ≤ floor ∧ now < t then
            -- sleep_for = max(reset_ts - now + safety_buffer_seconds, 0);
            -- the sleep only happens when sleep_for is positive
            let sleep_for := max (t - now + cfg.safety_buffer_seconds) 0
            (state, if 0 < sleep_for then some sleep_for else none)
          else if 0 < r then
            ({ state with remaining := some (r - 1) }, none)
          else
            (state, none)
      | none =>
          if 0 < r then
            ({ state with remaining := some (r - 1) }, none)
          else
            (state, none)
  | _, _ => (state, none)

/-- `LocalGratekeeper.after_response` on a single bucket's state: each
header that parses overwrites its field and sets the `updated` flag.
Returns the new state and the boolean the method returns. -/
def after_response (state : BucketState) (headers : Headers) : BucketState × Bool :=
  let limit := parse_int_header (headers "X-RateLimit-Limit")
  let remaining := parse_int_header (headers "X-RateLimit-Remaining")
  let reset := parse_int_header (headers "X-RateLimit-Reset")
  let su1 : BucketState × Bool :=
    match limit with
    | some v => ({ state with limit := some v }, true)
    | none => (state, false)
  let su2 : BucketState × Bool :=
    match remaining with
    | some v => ({ su1.1 with remaining := some v }, true)
    | none => su1
  match reset with
  | some v => ({ su2.1 with reset_ts := some v }, true)
  | none => su2

/-- The governor's bucket mapping `self._buckets`; `setdefault(bucket,
BucketState())` makes the dict behave as a total function whose default
is the empty state. -/
def Buckets := String → BucketState

/-- The empty `self._buckets = {}` mapping. -/
def initBuckets : Buckets := fun _ => BucketState.empty

/-- Point update of the bucket mapping. -/
def updateBucket (m : Buckets) (b : String) (st : BucketState) : Buckets :=
  fun b' => if b' = b then st else m b'

/-- One call to a public governor operation, with its argument. -/
inductive GovOp where
  | before (bucket : String) (now : Int)
  | after (bucket : String) (headers : Headers)

/-- The bucket an operation applies `after_response` to, if any. -/
def GovOp.afterBucket : GovOp → Option String
  | .after b _ => some b
  | .before _ _ => none

/-- Effect of one governor operation on the bucket mapping (`snapshot`
does not mutate and is omitted). -/
def applyGovOp (cfg : GratekeeperConfig) (m : Buckets) : GovOp → Buckets
  | .before b now => updateBucket m b (before_request cfg (m b) now).1
  | .after b h => updateBucket m b (after_response (m b) h).1

/-- State of the bucket mapping after a trace of governor operations,
starting from a freshly constructed governor. -/
def runGov (cfg : GratekeeperConfig) (ops : List GovOp) : Buckets :=
  ops.foldl (applyGovOp cfg) initBuckets

-- sanity: the end-to-end scenario from the spec's §8
example :
    before_request
      { soft_floor_fraction := mkRat 1 2, soft_floor_min := 1, safety_buffer_seconds := 3 }
      { limit := some 10, remaining := some 2, reset_ts := some 20 } 0
      = ({ limit := some 10, remaining := some 2, reset_ts := some 20 }, some 23) := by
  decide

-- sanity: decrement path
example :
    before_request defaultConfig
      { limit := some 100, remaining := some 50, reset_ts := some 10 } 0
      = ({ limit := some 100, remaining := some 49, reset_ts := some 10 }, none) := by
  decide

/-! ## Kill-switch gate and request pipeline (`src/gratekeeper/client.py`) -/

/-- The client's kill-switch fields `_killswitch_until` /
`_killswitch_reason`. Wall-clock `time.time()` values are modelled as
rationals. -/
structure KillswitchState where
  killswitch_until : Option ℚ := none
  killswitch_reason : Option String := none
deriving DecidableEq

/-- The `RuntimeError` raised by `_request` while the kill-switch is
active; its message carries the deadline and the reason (the stored
reason, or the fallback text when the stored one is falsy). -/
structure Blocked where
  until_epoch : ℚ
  reason : String
deriving DecidableEq

/-- The reason text used in the `Blocked` error:
`self._killswitch_reason or "killswitch active"` — Python truthiness, so
the fallback fires both when no reason is stored and when the stored
reason is the (falsy) empty string. -/
def killswitchReasonText (reason : Option String) : String :=
  match reason with
  | some r => if r = "" then "killswitch active" else r
  | none => "killswitch active"

/-- The kill-switch check at the top of `_request`: if a deadline is set
and `now < deadline`, fail with `Blocked`; if the deadline has passed,
`clear_killswitch()` runs (both fields reset) and the request may
proceed; with no deadline set the state is left alone. -/
def killswitchGate (ks : KillswitchState) (now : ℚ) : Except Blocked KillswitchState :=
  match ks.killswitch_until with
  | some u =>
      if now < u then
        Except.error { until_epoch := u, reason := killswitchReasonText ks.killswitch_reason }
      else
        Except.ok {}
  | none => Except.ok ks

/-- Result of one `_request` call: whether it failed at the gate, the
resulting kill-switch state and bucket mapping, how many transport calls
(`self._session.request`) were issued, the sleep performed by
`before_request` (if any), and the `updated` flag from
`after_response`. -/
structure RequestOutcome where
  blocked : Option Blocked
  ks : KillswitchState
  buckets : Buckets
  transport_calls : Nat
  slept : Option Int
  updated : Bool

/-- `RateLimitedGitHubClient._request`, up to the rate-limit bookkeeping:
gate check, then (when ratekeeping is enabled) `before_request`, then
exactly one transport call, then `after_response` on the response
headers.  `now` is the wall clock read by the gate and `keeper_now` the
governor's timestamp function; the transport is an external collaborator
summarised by the headers it responds with. -/
def clientRequest (cfg : GratekeeperConfig) (enable_ratekeeping : Bool)
    (ks : KillswitchState) (buckets : Buckets) (now : ℚ) (keeper_now : Int)
    (resp_headers : Headers) (bucket : String) : RequestOutcome :=
  match killswitchGate ks now with
  | Except.error b =>
      { blocked := some b, ks := ks, buckets := buckets,
        transport_calls := 0, slept := none, updated := false }
  | Except.ok ks1 =>
      let pre : Buckets × Option Int :=
        if enable_ratekeeping then
          let p := before_request cfg (buckets bucket) keeper_now
          (updateBucket buckets bucket p.1, p.2)
        else (buckets, none)
      -- the single transport call happens here
      let post : Buckets × Bool :=
        if enable_ratekeeping then
          let q := after_response (pre.1 bucket) resp_headers
          (updateBucket pre.1 bucket q.1, q.2)
        else (pre.1, false)
      { blocked := none, ks := ks1, buckets := post.1,
        transport_calls := 1, slept := pre.2, updated := post.2 }

/-! ## Listener fan-out (`src/gratekeeper/client.py`) -/

/-- `add_rate_limit_listener`: append the callback unless it is already
registered. Callbacks are compared by identity in Python; any type with
decidable equality models that. -/
def add_rate_limit_listener {α : Type} [DecidableEq α] (listeners : List α) (l : α) :
    List α :=
  if l ∈ listeners then listeners else listeners ++ [l]

/-- `remove_rate_limit_listener`: remove the callback (first occurrence)
if it is registered, otherwise leave the registry unchanged. -/
def remove_rate_limit_listener {α : Type} [DecidableEq α] (listeners : List α) (l : α) :
    List α :=
  if l ∈ listeners then listeners.erase l else listeners

/-- `_notify_rate_limit_listeners`: the list is copied under the lock and
each callback of the copy is invoked in order with the bucket name and a
snapshot.  The model returns the sequence of invocations performed. -/
def notify_rate_limit_listeners {α : Type} (listeners : List α) (bucket : String)
    (snap : BucketState) : List (α × String × BucketState) :=
  listeners.map (fun l => (l, bucket, snap))

/-! ## Reconciler (`textual_dashboard.py` / `dashboard.py`) -/

/-- `RateLimitResource` (dashboard.py): a per-bucket quota snapshot shown
by the dashboards. -/
structure RateLimitResource where
  bucket : String
  limit : Option Int
  remaining : Option Int
  reset_ts : Option Int
deriving DecidableEq, Repr

/-- `bridge.RateLimitUpdate`: one observation pushed over the bridge
socket. -/
structure RateLimitUpdate where
  bucket : String
  limit : Option Int
  remaining : Option Int
  reset_ts : Option Int
deriving DecidableEq, Repr

/-- `_resource_from_snapshot(bucket, state)`. -/
def resource_from_snapshot (bucket : String) (state : BucketState) : RateLimitResource :=
  { bucket := bucket, limit := state.limit, remaining := state.remaining,
    reset_ts := state.reset_ts }

/-- The `RateLimitResource` built by `_handle_socket_update` from a
bridge update. -/
def resource_of_update (u : RateLimitUpdate) : RateLimitResource :=
  { bucket := u.bucket, limit := u.limit, remaining := u.remaining,
    reset_ts := u.reset_ts }

/-- Python `dict.get` over a dict built by inserting the listed pairs in
order (a later duplicate key overwrites an earlier one). -/
def pyDictGet {β : Type} (pairs : List (String × β)) (k : String) : Option β :=
  pairs.foldl (fun acc p => if p.1 = k then some p.2 else acc) none

/-- The reconciler's `self._resources` mapping. -/
def ResourceMap := String → Option RateLimitResource

/-- `self._resources = {}` at startup. -/
def emptyResources : ResourceMap := fun _ => none

/-- One update arriving at the reconciler, tagged by its producer:
the listener fan-out (`_apply_snapshot`, tag `client`/`live`), the
bridge socket (`_handle_socket_update`, tag `bridge`), or the periodic
pull (`_update_resources` on the parsed `/rate_limit` payload, tag
`fetch`). -/
inductive ReconcilerEvent where
  | clientSnap (bucket : String) (state : BucketState)
  | bridgePush (u : RateLimitUpdate)
  | fetchAll (parsed : List (String × RateLimitResource))

/-- Effect of one event on the resource map, following the source:
`_apply_snapshot` and `_handle_socket_update` assign
`self._resources[resource.bucket] = resource`; `_update_resources`
performs `self._resources = dict(resources)`, replacing the whole
mapping. -/
def applyEvent (m : ResourceMap) : ReconcilerEvent → ResourceMap
  | .clientSnap b st =>
      fun b' => if b' = b then some (resource_from_snapshot b st) else m b'
  | .bridgePush u =>
      fun b' => if b' = u.bucket then some (resource_of_update u) else m b'
  | .fetchAll parsed =>
      fun b' => pyDictGet parsed b'

/-- Resource map after a sequence of reconciler events. -/
def applyEvents (m : ResourceMap) (evs : List ReconcilerEvent) : ResourceMap :=
  evs.foldl applyEvent m

/-- The most recently applied update naming a given bucket.  Modelled
from the spec claim's words: client and bridge events are updates for
their bucket, and a fetch is an update for exactly the buckets present
in its parsed payload.  Used to state the reconciler claim, to be
compared with what `applyEvents` stores. -/
def eventUpdateFor (b : String) : ReconcilerEvent → Option RateLimitResource
  | .clientSnap b' st => if b' = b then some (resource_from_snapshot b' st) else none
  | .bridgePush u => if u.bucket = b then some (resource_of_update u) else none
  | .fetchAll parsed => pyDictGet parsed b

/-- Modelled from the spec: the value of the most recent event of the
sequence that carries an update for bucket `b` (later events win). -/
def specLastUpdateFor (b : String) (evs : List ReconcilerEvent) : Option RateLimitResource :=
  evs.foldl
    (fun acc e =>
      match eventUpdateFor b e with
      | some r => some r
      | none => acc)
    none

/-- What an event does to bucket `b`'s entry, if anything: `some v`
means the entry becomes `v` (a fetch touches *every* bucket, setting the
entry to its payload's value for `b` — `none` when `b` is absent, which
drops the entry). -/
def eventTouch (b : String) : ReconcilerEvent → Option (Option RateLimitResource)
  | .clientSnap b' st => if b = b' then some (some (resource_from_snapshot b' st)) else none
  | .bridgePush u => if b = u.bucket then some (some (resource_of_update u)) else none
  | .fetchAll parsed => some (pyDictGet parsed b)

/-- The last touch of bucket `b` by a sequence of events (later events
win); `none` when no event touched the bucket. -/
def lastTouch (b : String) : List ReconcilerEvent → Option (Option RateLimitResource)
  | [] => none
  | e :: rest =>
      match lastTouch b rest with
      | some v => some v
      | none => eventTouch b e

/-! ## Bridge channel reader (`textual_dashboard.py`) and writer (`bridge.py`) -/

/-- Parsed JSON values, as produced by `json.loads` on one bridge line.
JSON numbers are modelled as exact rationals. -/
inductive JVal where
  | null
  | jbool (b : Bool)
  | num (q : ℚ)
  | str (s : String)
  | arr (items : List JVal)
  | obj (fields : List (String × JVal))

/-- Python truthiness (`if not bucket`) on a JSON value. -/
def jTruthy : JVal → Bool
  | .null => false
  | .jbool b => b
  | .num q => decide (q.num ≠ 0)
  | .str s => !s.isEmpty
  | .arr items => !items.isEmpty
  | .obj fields => !fields.isEmpty

/-- Python `str(bucket)` on a JSON value.  Strings pass through
unchanged (the only case an actual feed produces and the only one any
property below depends on); the renderings of the other shapes are
abstracted by fixed placeholder texts rather than CPython's exact
`repr`-based formatting. -/
def pyStr : JVal → String
  | .str s => s
  | .null => "None"
  | .jbool b => if b then "True" else "False"
  | .num q => toString q.num
  | .arr _ => "list"
  | .obj _ => "dict"

/-- `_coerce_int` (`textual_dashboard.py`), identical to `_safe_int`
(`bridge.py` / `dashboard.py`): `None` → `None`; `bool`/`int`/`float` →
`int(value)` (a Python `bool` is an `int`); strings are stripped, empty
→ `None`, otherwise CPython `int()` with `ValueError` → `None`; any
other shape → `None`.  The argument is the result of `payload.get`. -/
def coerce_int : Option JVal → Option Int
  | none => none
  | some .null => none
  | some (.jbool b) => some (if b then 1 else 0)
  | some (.num q) => some (pyTrunc q)
  | some (.str s) =>
      let stripped := pyStripChars s.data
      if stripped.isEmpty then none
      else pyInt (String.mk stripped)
  | some (.arr _) => none
  | some (.obj _) => none

/-- Effect of one received line on the `_handle_client` loop: either the
line is skipped (the loop just continues with the next line — the
connection is not closed) or a `RateLimitUpdate` is handed to the
dashboard's handler. -/
inductive BridgeLineEffect where
  | skip
  | apply (u : RateLimitUpdate)
deriving DecidableEq

/-- One iteration of `_RateLimitSocketServer._handle_client` on a line:
`none` models a line `json.loads` rejects (the `except` continues the
loop); a non-object payload makes `payload.get` raise, also caught; a
missing or falsy `bucket` is skipped; otherwise the update is built with
`coerce_int` on each numeric field. -/
def handleLine (parsed : Option JVal) : BridgeLineEffect :=
  match parsed with
  | none => .skip
  | some (.obj fields) =>
      match pyDictGet fields "bucket" with
      | none => .skip
      | some bv =>
          if jTruthy bv then
            .apply
              { bucket := pyStr bv
                limit := coerce_int (pyDictGet fields "limit")
                remaining := coerce_int (pyDictGet fields "remaining")
                reset_ts := coerce_int (pyDictGet fields "reset_ts") }
          else .skip
  | some _ => .skip

/-- The updates a connection delivers to the handler: the reader loop
runs line by line until EOF, never closing early on a bad line. -/
def processLines : List (Option JVal) → List RateLimitUpdate
  | [] => []
  | line :: rest =>
      match handleLine line with
      | .skip => processLines rest
      | .apply u => u :: processLines rest

/-- Outcome of the socket transmission attempted by `emit_update`: the
payload line was fully sent, or some `OSError` (connect failure,
timeout, send failure) was raised by the socket calls. -/
inductive SocketOutcome where
  | delivered
  | os_error
deriving DecidableEq

/-- `bridge.emit_update`: returns `False` without touching the socket
when `socket_path` is unset or empty (`if not socket_path`), `True` when
the JSON line was fully sent, and `False` when the socket raised an
`OSError`; it never propagates an exception. -/
def emit_update (socket_path : Option String) (transmission : SocketOutcome) : Bool :=
  match socket_path with
  | none => false
  | some p =>
      if p = "" then false
      else
        match transmission with
        | .delivered => true
        | .os_error => false

-- sanity: the spec's bridge line
example :
    handleLine (some (.obj [("bucket", .str "search"), ("limit", .str "30"),
      ("remaining", .str "x"), ("reset_ts", .num 90)]))
      = .apply { bucket := "search", limit := some 30, remaining := none,
                 reset_ts := some 90 } := by
  decide

/-! ## Shared helper lemmas -/

/-- `before_request` on a never-observed (empty) bucket state returns
immediately: no clearing applies, and the unset `limit` forces the early
return. -/
lemma before_request_empty (cfg : GratekeeperConfig) (now : Int) :
    before_request cfg BucketState.empty now = (BucketState.empty, none) := rfl

/-- The stored state after `before_request` is the empty state, the
input state unchanged, or the input state with `remaining` speculatively
decremented from a positive value. -/
lemma before_request_state_cases (cfg : GratekeeperConfig) (st : BucketState) (now : Int) :
    (before_request cfg st now).1 = BucketState.empty ∨
    (before_request cfg st now).1 = st ∨
    ∃ r, st.remaining = some r ∧ 0 < r ∧
      (before_request cfg st now).1 = { st with remaining := some (r - 1) } := by
  rcases st with ⟨lim, rem, rts⟩
  unfold before_request
  rcases rts with _ | t
  · rcases lim with _ | l
    · right; left; rfl
    · rcases rem with _ | r
      · right; left; rfl
      · by_cases hr : (0 : Int) < r
        · right; right; exact ⟨r, rfl, hr, by simp [hr]⟩
        · right; left; simp [hr]
  · by_cases hstale : t ≤ now
    · left; simp [hstale, BucketState.empty]
    · rcases lim with _ | l
      · right; left; simp [hstale]
      · rcases rem with _ | r
        · right; left; simp [hstale]
        · by_cases hfloor : r ≤ softFloor cfg l ∧ now < t
          · right; left; simp [hstale, hfloor]
          · by_cases hr : (0 : Int) < r
            · right; right; exact ⟨r, rfl, hr, by simp [hstale, hfloor, hr]⟩
            · right; left; simp [hstale, hfloor, hr]

/-- A bucket on which no `after_response` was ever applied keeps the
empty default state through any trace of governor operations. -/
lemma runGov_untouched (cfg : GratekeeperConfig) (b : String) :
    ∀ (ops : List GovOp) (m : Buckets), m b = BucketState.empty →
      (∀ op ∈ ops, GovOp.afterBucket op ≠ some b) →
      ops.foldl (applyGovOp cfg) m b = BucketState.empty
  | [], _, hm, _ => hm
  | op :: rest, m, hm, hops => by
      have htail : ∀ o ∈ rest, GovOp.afterBucket o ≠ some b :=
        fun o ho => hops o (List.mem_cons_of_mem _ ho)
      have hstep : applyGovOp cfg m op b = BucketState.empty := by
        cases op with
        | before b' n =>
            by_cases hb : b = b'
            · subst hb
              simp [applyGovOp, updateBucket, hm, before_request_empty]
            · simp [applyGovOp, updateBucket, hb, hm]
        | after b' h =>
            have hb : b ≠ b' := by
              intro e
              exact hops _ (List.mem_cons_self _ _) (by simp [GovOp.afterBucket, e])
            simp [applyGovOp, updateBucket, hb, hm]
      simpa [List.foldl_cons] using
        runGov_untouched cfg b rest (applyGovOp cfg m op) hstep htail

/-! ## Claim theorems -/

/-- C1: for a stored bucket state with `limit` and `remaining` set,
`remaining ≤ softFloor(limit)` and `reset_ts` strictly in the future,
`before_request` sleeps for exactly `(reset_ts − now) +
safety_buffer_seconds` and leaves the stored state (in particular
`remaining`) unchanged. -/
theorem before_request_sleeps_under_floor (cfg : GratekeeperConfig)
    (st : BucketState) (now l r t : Int)
    (hl : st.limit = some l) (hr : st.remaining = some r) (ht : st.reset_ts = some t)
    (hfloor : r ≤ softFloor cfg l) (hfut : now < t)
    (hbuf : 0 ≤ cfg.safety_buffer_seconds) :
    before_request cfg st now = (st, some (t - now + cfg.safety_buffer_seconds)) := by
  have hstale : ¬ t ≤ now := not_le.mpr hfut
  have hpos : 0 < t - now + cfg.safety_buffer_seconds := by omega
  have hmax : max (t - now + cfg.safety_buffer_seconds) 0
      = t - now + cfg.safety_buffer_seconds := max_eq_left hpos.le
  unfold before_request
  simp [ht, hl, hr, hstale, hfloor, hfut, hmax, hpos]

/-- C1 witness: the spec's end-to-end scenario — `limit=10, remaining=2,
reset=now+20`, fraction `0.5`, floor min `1`, buffer `3`:
`before_request` sleeps exactly 23 seconds and `remaining` stays 2. -/
theorem before_request_sleeps_under_floor_witness :
    before_request
      { soft_floor_fraction := mkRat 1 2, soft_floor_min := 1, safety_buffer_seconds := 3 }
      { limit := some 10, remaining := some 2, reset_ts := some 20 } 0
      = ({ limit := some 10, remaining := some 2, reset_ts := some 20 }, some 23) :=
  before_request_sleeps_under_floor
    { soft_floor_fraction := mkRat 1 2, soft_floor_min := 1, safety_buffer_seconds := 3 }
    { limit := some 10, remaining := some 2, reset_ts := some 20 }
    0 10 2 20 rfl rfl rfl (by decide) (by decide) (by decide)

/-- C3 counterexample: the claim also covers the case `reset_ts` unset
(with `limit`/`remaining` set), asserting the state is cleared; the code
only clears when `reset_ts` is set and passed.  With `limit=5,
remaining=3, reset_ts=None` at `now=100`, `before_request` keeps the
fields (and speculatively decrements `remaining` to 2) instead of
clearing them. -/
theorem before_request_reset_unset_not_cleared :
    before_request defaultConfig
      { limit := some 5, remaining := some 3, reset_ts := none } 100
      = ({ limit := some 5, remaining := some 2, reset_ts := none }, none) ∧
    ({ limit := some 5, remaining := some 2, reset_ts := none } : BucketState)
      ≠ BucketState.empty :=
  ⟨by decide, by decide⟩

/-- C3 (amended): when the stored `reset_ts` is set and not in the
future (`reset_ts ≤ now`), `before_request` treats the state as stale
and clears all three fields to unset before any further accounting,
returning without a sleep; a state whose `reset_ts` is unset is left
alone. -/
theorem before_request_clears_stale_reset (cfg : GratekeeperConfig)
    (st : BucketState) (now t : Int)
    (ht : st.reset_ts = some t) (hstale : t ≤ now) :
    before_request cfg st now = (BucketState.empty, none) := by
  unfold before_request
  simp [ht, hstale, BucketState.empty]

/-- C3 witness: a stale window (`reset_ts = 5 ≤ now = 5`) with both
`limit` and `remaining` set is fully cleared. -/
theorem before_request_clears_stale_reset_witness :
    before_request defaultConfig
      { limit := some 10, remaining := some 4, reset_ts := some 5 } 5
      = (BucketState.empty, none) :=
  before_request_clears_stale_reset defaultConfig
    { limit := some 10, remaining := some 4, reset_ts := some 5 } 5 5 rfl (by decide)

/-- C9: for a bucket name on which `after_response` was never applied,
any `before_request` call returns without sleeping (and, the model being
total, without error): after any trace of public operations avoiding
`after_response` on that bucket, its stored state is still the empty
default and `before_request` is a no-op on it. -/
theorem before_request_unobserved_bucket (cfg : GratekeeperConfig)
    (ops : List GovOp) (b : String) (now : Int)
    (h : ∀ op ∈ ops, GovOp.afterBucket op ≠ some b) :
    runGov cfg ops b = BucketState.empty ∧
    before_request cfg (runGov cfg ops b) now = (BucketState.empty, none) := by
  have hb : runGov cfg ops b = BucketState.empty :=
    runGov_untouched cfg b ops initBuckets rfl h
  exact ⟨hb, by rw [hb, before_request_empty]⟩

/-- Headers observed on the `core` bucket in the C9 witness trace. -/
def hdrsObserved : Headers := fun k =>
  if k = "X-RateLimit-Limit" then some "5000"
  else if k = "X-RateLimit-Remaining" then some "4500"
  else if k = "X-RateLimit-Reset" then some "1234567890"
  else none

/-- C9 witness: after observing headers on `core` and issuing a request
on `core`, the never-observed bucket `search` still has empty state and
`before_request "search"` does not sleep. -/
theorem before_request_unobserved_bucket_witness :
    runGov defaultConfig
      [GovOp.after "core" hdrsObserved, GovOp.before "core" 0] "search"
      = BucketState.empty ∧
    before_request defaultConfig
      (runGov defaultConfig
        [GovOp.after "core" hdrsObserved, GovOp.before "core" 0] "search") 7
      = (BucketState.empty, none) :=
  before_request_unobserved_bucket defaultConfig
    [GovOp.after "core" hdrsObserved, GovOp.before "core" 0] "search" 7
    (by intro op hop; fin_cases hop <;> decide)

/-- Headers whose parsed values all equal an already-stored state
`limit=10, remaining=4, reset_ts=100`. -/
def hdrsSame : Headers := fun k =>
  if k = "X-RateLimit-Limit" then some "10"
  else if k = "X-RateLimit-Remaining" then some "4"
  else if k = "X-RateLimit-Reset" then some "100"
  else none

/-- C2 counterexample: `after_response` returns `True` whenever a header
is present and parses, even when every parsed value equals the stored
one — here the stored state is unchanged, yet the returned flag is
`true`, where the claim requires `false`. -/
theorem after_response_true_without_change :
    after_response { limit := some 10, remaining := some 4, reset_ts := some 100 } hdrsSame
      = ({ limit := some 10, remaining := some 4, reset_ts := some 100 }, true) := by
  decide

/-- C2 (amended): `after_response` returns `true` if and only if at
least one of the three rate-limit headers is present and parses as an
integer — i.e. at least one field was (over)written, possibly with the
value it already had. -/
theorem after_response_updated_iff_header_parsed (st : BucketState) (h : Headers) :
    (after_response st h).2 = true ↔
      (parse_int_header (h "X-RateLimit-Limit")).isSome = true ∨
      (parse_int_header (h "X-RateLimit-Remaining")).isSome = true ∨
      (parse_int_header (h "X-RateLimit-Reset")).isSome = true := by
  unfold after_response
  cases hL : parse_int_header (h "X-RateLimit-Limit") <;>
    cases hR : parse_int_header (h "X-RateLimit-Remaining") <;>
      cases hT : parse_int_header (h "X-RateLimit-Reset") <;>
        simp [hL, hR, hT]

/-- The invariant claimed for Quota State fields: `limit` and
`remaining` are nonnegative whenever set. -/
def BucketState.nonneg (st : BucketState) : Prop :=
  (∀ x ∈ st.limit, 0 ≤ x) ∧ (∀ x ∈ st.remaining, 0 ≤ x)

/-- Headers reporting a negative `remaining`. -/
def hdrsNeg : Headers := fun k =>
  if k = "X-RateLimit-Remaining" then some "-5" else none

/-- C6 counterexample: `_parse_int_header` accepts any integer string,
including negative ones, so the public operation `after_response`
reaches a stored state with `remaining = -5 < 0`, refuting "no header
input can make a stored field negative". -/
theorem after_response_stores_negative_header :
    (runGov defaultConfig [GovOp.after "core" hdrsNeg] "core").remaining = some (-5) ∧
    ¬ (runGov defaultConfig [GovOp.after "core" hdrsNeg] "core").nonneg := by
  have hrem : (runGov defaultConfig [GovOp.after "core" hdrsNeg] "core").remaining
      = some (-5) := by decide
  refine ⟨hrem, fun hn => ?_⟩
  have : (0 : Int) ≤ -5 := hn.2 (-5) (by rw [hrem]; rfl)
  exact absurd this (by decide)

/-- C6 (amended): the governor's own accounting preserves
nonnegativity — `before_request` (stale clearing, sleeping, and the
speculative decrement, which only fires from a positive `remaining`)
never drives a nonnegative stored field negative; only a header
reporting a negative integer can (see the counterexample). -/
theorem before_request_preserves_nonneg (cfg : GratekeeperConfig)
    (st : BucketState) (now : Int) (h : st.nonneg) :
    ((before_request cfg st now).1).nonneg := by
  rcases before_request_state_cases cfg st now with hc | hc | ⟨r, hrem, hrpos, hc⟩
  · rw [hc]
    exact ⟨by simp [BucketState.empty], by simp [BucketState.empty]⟩
  · rw [hc]; exact h
  · rw [hc]
    refine ⟨h.1, ?_⟩
    intro x hx
    simp only [Option.mem_def, Option.some_inj] at hx
    omega

/-- C6 witness: from the observed state `limit=100, remaining=50,
reset_ts=10` (nonnegative fields) at `now=0`, the state after
`before_request` still has nonnegative fields. -/
theorem before_request_preserves_nonneg_witness :
    ((before_request defaultConfig
      { limit := some 100, remaining := some 50, reset_ts := some 10 } 0).1).nonneg :=
  before_request_preserves_nonneg defaultConfig
    { limit := some 100, remaining := some 50, reset_ts := some 10 } 0
    ⟨by decide, by decide⟩

/-- C8: listener registration is idempotent — adding a callback twice
leaves exactly one occurrence, so one notification pass (which iterates
over a copy of the registry in order) invokes it exactly once — and
removing an unregistered callback leaves the registry unchanged. -/
theorem listener_registration_idempotent {α : Type} [DecidableEq α]
    (listeners : List α) (c : α) (bucket : String) (snap : BucketState)
    (h : c ∉ listeners) :
    add_rate_limit_listener (add_rate_limit_listener listeners c) c
      = add_rate_limit_listener listeners c ∧
    (add_rate_limit_listener (add_rate_limit_listener listeners c) c).count c = 1 ∧
    remove_rate_limit_listener listeners c = listeners ∧
    ((notify_rate_limit_listeners
        (add_rate_limit_listener (add_rate_limit_listener listeners c) c)
        bucket snap).map Prod.fst).count c = 1 := by
  have h1 : add_rate_limit_listener listeners c = listeners ++ [c] := if_neg h
  have hmem : c ∈ listeners ++ [c] := by simp
  have h2 : add_rate_limit_listener (listeners ++ [c]) c = listeners ++ [c] :=
    if_pos hmem
  have hcount : (listeners ++ [c]).count c = 1 := by
    rw [List.count_append, List.count_eq_zero.mpr h]
    simp
  refine ⟨by rw [h1, h2], by rw [h1, h2, hcount], if_neg h, ?_⟩
  have hmap : ((notify_rate_limit_listeners (listeners ++ [c]) bucket snap).map
      Prod.fst) = listeners ++ [c] := by
    simp [notify_rate_limit_listeners, List.map_map, Function.comp_def]
  rw [h1, h2, hmap, hcount]

/-- C8 witness: registering callback `0` twice in an empty registry
yields one occurrence and one notification; removing it from the empty
registry is a no-op. -/
theorem listener_registration_idempotent_witness :
    add_rate_limit_listener (add_rate_limit_listener ([] : List Nat) 0) 0
      = add_rate_limit_listener ([] : List Nat) 0 ∧
    (add_rate_limit_listener (add_rate_limit_listener ([] : List Nat) 0) 0).count 0 = 1 ∧
    remove_rate_limit_listener ([] : List Nat) 0 = [] ∧
    ((notify_rate_limit_listeners
        (add_rate_limit_listener (add_rate_limit_listener ([] : List Nat) 0) 0)
        "core" BucketState.empty).map Prod.fst).count 0 = 1 :=
  listener_registration_idempotent [] 0 "core" BucketState.empty (by decide)

/-- C10: `emit_update` never raises; it reports `true` exactly when a
socket path is configured (set and nonempty) and the payload line was
fully sent, and `false` both for a missing/empty path (no socket is
touched) and for any `OSError` from the socket calls. -/
theorem emit_update_true_iff_sent (sp : Option String) (o : SocketOutcome) :
    emit_update sp o = true ↔
      ∃ p, sp = some p ∧ p ≠ "" ∧ o = SocketOutcome.delivered := by
  cases sp with
  | none => simp [emit_update]
  | some p =>
      by_cases hp : p = ""
      · subst hp; simp [emit_update]
      · cases o <;> simp [emit_update, hp]

/-- C4: while a kill-switch deadline is set and `now < deadline`, the
request pipeline fails with `Blocked` carrying the reason and deadline,
makes zero transport calls and leaves all state untouched; when
`now ≥ deadline`, the gate clears both kill-switch fields as a side
effect of the check and the request proceeds to the (single) transport
call. -/
theorem clientRequest_killswitch_gate (cfg : GratekeeperConfig) (rk : Bool)
    (ks : KillswitchState) (buckets : Buckets) (now u : ℚ) (keeper_now : Int)
    (resp_headers : Headers) (bucket : String)
    (hset : ks.killswitch_until = some u) :
    (now < u →
      clientRequest cfg rk ks buckets now keeper_now resp_headers bucket =
        { blocked := some { until_epoch := u,
                            reason := killswitchReasonText ks.killswitch_reason },
          ks := ks, buckets := buckets, transport_calls := 0,
          slept := none, updated := false }) ∧
    (u ≤ now →
      (clientRequest cfg rk ks buckets now keeper_now resp_headers bucket).blocked
          = none ∧
      (clientRequest cfg rk ks buckets now keeper_now resp_headers bucket).ks
          = { killswitch_until := none, killswitch_reason := none } ∧
      (clientRequest cfg rk ks buckets now keeper_now resp_headers bucket).transport_calls
          = 1) := by
  constructor
  · intro hlt
    unfold clientRequest killswitchGate
    simp [hset, hlt]
  · intro hge
    have hnot : ¬ now < u := not_lt.mpr hge
    unfold clientRequest killswitchGate
    simp [hset, hnot]

/-- C4 witness: with the kill-switch armed until epoch 10 (reason
"maintenance"), a request at `now = 5` is blocked with that deadline and
reason and zero transport calls; a request at `now = 15` proceeds with
one transport call and finds both kill-switch fields cleared. -/
theorem clientRequest_killswitch_gate_witness :
    (clientRequest defaultConfig true
        { killswitch_until := some 10, killswitch_reason := some "maintenance" }
        initBuckets 5 0 hdrsObserved "core"
      = { blocked := some { until_epoch := 10, reason := "maintenance" },
          ks := { killswitch_until := some 10, killswitch_reason := some "maintenance" },
          buckets := initBuckets, transport_calls := 0,
          slept := none, updated := false }) ∧
    ((clientRequest defaultConfig true
        { killswitch_until := some 10, killswitch_reason := some "maintenance" }
        initBuckets 15 0 hdrsObserved "core").blocked = none ∧
      (clientRequest defaultConfig true
        { killswitch_until := some 10, killswitch_reason := some "maintenance" }
        initBuckets 15 0 hdrsObserved "core").ks
          = { killswitch_until := none, killswitch_reason := none } ∧
      (clientRequest defaultConfig true
        { killswitch_until := some 10, killswitch_reason := some "maintenance" }
        initBuckets 15 0 hdrsObserved "core").transport_calls = 1) :=
  ⟨(clientRequest_killswitch_gate defaultConfig true
      { killswitch_until := some 10, killswitch_reason := some "maintenance" }
      initBuckets 5 10 0 hdrsObserved "core" rfl).1 (by decide),
   (clientRequest_killswitch_gate defaultConfig true
      { killswitch_until := some 10, killswitch_reason := some "maintenance" }
      initBuckets 15 10 0 hdrsObserved "core" rfl).2 (by decide)⟩

/-- Pointwise description of one reconciler event: bucket `b`'s entry
becomes whatever the event sets it to, or keeps its old value when the
event does not touch `b`. -/
lemma applyEvent_touch (m : ResourceMap) (e : ReconcilerEvent) (b : String) :
    applyEvent m e b = (eventTouch b e).getD (m b) := by
  cases e with
  | clientSnap b' st => by_cases hb : b = b' <;> simp [applyEvent, eventTouch, hb]
  | bridgePush u => by_cases hb : b = u.bucket <;> simp [applyEvent, eventTouch, hb]
  | fetchAll parsed => simp [applyEvent, eventTouch]

/-- The stored entry for a bucket after a sequence of events is its last
touch, falling back to the initial entry when no event touched it. -/
lemma applyEvents_lastTouch (b : String) :
    ∀ (evs : List ReconcilerEvent) (m : ResourceMap),
      applyEvents m evs b = (lastTouch b evs).getD (m b)
  | [], _ => rfl
  | e :: rest, m => by
      have ih := applyEvents_lastTouch b rest (applyEvent m e)
      simp only [applyEvents, List.foldl_cons] at ih ⊢
      cases hlt : lastTouch b rest with
      | some v =>
          rw [hlt] at ih
          simpa [lastTouch, hlt] using ih
      | none =>
          rw [hlt] at ih
          simp only [Option.getD_none] at ih
          rw [ih, applyEvent_touch]
          simp [lastTouch, hlt]

/-- C5 (amended): among updates that mention a bucket, the most recently
applied one wins regardless of source — whenever the last event touching
bucket `b` sets it to resource `r` (a client snapshot or bridge push for
`b`, or a fetch whose parsed payload contains `b`), the stored entry is
exactly `r`.  (A fetch whose payload omits `b` instead *drops* the
entry, since `_update_resources` replaces the whole mapping — see the
counterexample.) -/
theorem reconciler_last_write_wins (m : ResourceMap) (b : String)
    (evs : List ReconcilerEvent) (r : RateLimitResource)
    (h : lastTouch b evs = some (some r)) :
    applyEvents m evs b = some r := by
  rw [applyEvents_lastTouch b evs m, h, Option.getD_some]

/-- The spec's three-update reconciler scenario for bucket `core`:
fetch(remaining=50), then bridge(remaining=40), then
client(remaining=45). -/
def evsCore : List ReconcilerEvent :=
  [ ReconcilerEvent.fetchAll
      [("core", { bucket := "core", limit := none, remaining := some 50, reset_ts := none })],
    ReconcilerEvent.bridgePush
      { bucket := "core", limit := none, remaining := some 40, reset_ts := none },
    ReconcilerEvent.clientSnap "core"
      { limit := none, remaining := some 45, reset_ts := none } ]

/-- C5 witness: after fetch(50) → bridge(40) → client(45) on `core`,
the stored `core` resource has `remaining = 45` (last arrival wins). -/
theorem reconciler_last_write_wins_witness :
    applyEvents emptyResources evsCore "core"
      = some { bucket := "core", limit := none, remaining := some 45, reset_ts := none } :=
  reconciler_last_write_wins emptyResources "core" evsCore
    { bucket := "core", limit := none, remaining := some 45, reset_ts := none }
    (by decide)

/-- A bridge update for `search` followed by a fetch whose payload only
contains `core`. -/
def evsDrop : List ReconcilerEvent :=
  [ ReconcilerEvent.bridgePush
      { bucket := "search", limit := some 30, remaining := some 40, reset_ts := some 90 },
    ReconcilerEvent.fetchAll
      [("core", { bucket := "core", limit := none, remaining := some 50, reset_ts := none })] ]

/-- C5 counterexample: the most recently applied update for bucket
`search` is the bridge push (remaining 40), yet after the later fetch —
which replaces the entire mapping with its own payload — the stored
entry for `search` is gone, not equal to that update. -/
theorem reconciler_fetch_drops_bucket :
    specLastUpdateFor "search" evsDrop
      = some { bucket := "search", limit := some 30, remaining := some 40, reset_ts := some 90 } ∧
    applyEvents emptyResources evsDrop "search" = none :=
  ⟨by decide, by decide⟩

/-- The spec's bridge line
`{"bucket":"search","limit":"30","remaining":"x","reset_ts":90}` as a
parsed JSON object. -/
def searchLine : JVal :=
  JVal.obj [("bucket", JVal.str "search"), ("limit", JVal.str "30"),
    ("remaining", JVal.str "x"), ("reset_ts", JVal.num 90)]

/-- The observation that line must produce. -/
def searchUpdate : RateLimitUpdate :=
  { bucket := "search", limit := some 30, remaining := none, reset_ts := some 90 }

/-- C7: the bridge reader is tolerant — a malformed line (JSON parse
failure) and a line without a `bucket` field are skipped while the
connection keeps processing subsequent lines, and the spec's line with a
non-numeric `remaining` yields an update with `remaining = null`,
`limit = 30`, `reset_ts = 90`, again without closing the connection. -/
theorem bridge_reader_tolerant (rest : List (Option JVal))
    (fields : List (String × JVal)) (hb : pyDictGet fields "bucket" = none) :
    processLines (none :: rest) = processLines rest ∧
    processLines (some (JVal.obj fields) :: rest) = processLines rest ∧
    handleLine (some searchLine) = BridgeLineEffect.apply searchUpdate ∧
    processLines (some searchLine :: rest) = searchUpdate :: processLines rest := by
  have hsearch : handleLine (some searchLine) = BridgeLineEffect.apply searchUpdate := by
    decide
  refine ⟨rfl, ?_, hsearch, ?_⟩
  · simp [processLines, handleLine, hb]
  · simp [processLines, hsearch]

/-- C7 witness: a connection that receives one malformed line, one line
missing `bucket`, and the spec's `search` line delivers exactly the
`search` observation and stays in its read loop throughout. -/
theorem bridge_reader_tolerant_witness :
    processLines (none :: [some (JVal.obj []), some searchLine])
        = processLines [some (JVal.obj []), some searchLine] ∧
    processLines (some (JVal.obj []) :: [some searchLine])
        = processLines [some searchLine] ∧
    handleLine (some searchLine) = BridgeLineEffect.apply searchUpdate ∧
    processLines (some searchLine :: []) = searchUpdate :: processLines [] :=
  ⟨(bridge_reader_tolerant [some (JVal.obj []), some searchLine] [] rfl).1,
   (bridge_reader_tolerant [some searchLine] [] rfl).2.1,
   (bridge_reader_tolerant [] [] rfl).2.2.1,
   (bridge_reader_tolerant [] [] rfl).2.2.2⟩
